import Mathlib

/-!
Shallow embedding of the streaming text-to-speech playback pipeline of
`rime-mcp` (`src/stream-audio.ts`, the exported `playText` implementation,
and the MCP `speak` tool handler `doSpeak` of the server file).

The WebSocket transport delivers events one at a time in arrival order and
each handler runs to completion before the next event, so the session is
modelled as a fold of a step function over a list of events.  Machine
numbers of the TypeScript source (`samplingRate`, `initialBufferSize`) are
JavaScript numbers used as non-negative integers and are modelled as `Nat`;
`speedAlpha` is modelled as `ℚ`.  File bytes are `Nat` values below 256
produced by the base64 decoder.  The promise returned by `playText` settles
at most once; it is modelled by an `Option (Except ...)` field that `settle`
writes only when still `none`.
-/

namespace RimeMcp

/-- One sextet value of the base64 alphabet, or `none` for a character the
decoder skips.  Models the character classes accepted by Node's
`Buffer.from(data, "base64")` (standard and URL-safe alphabets; padding and
other characters are ignored). -/
def base64Val (c : Char) : Option Nat :=
  if 'A' ≤ c ∧ c ≤ 'Z' then some (c.toNat - 65)
  else if 'a' ≤ c ∧ c ≤ 'z' then some (c.toNat - 97 + 26)
  else if '0' ≤ c ∧ c ≤ '9' then some (c.toNat - 48 + 52)
  else if c = '+' ∨ c = '-' then some 62
  else if c = '/' ∨ c = '_' then some 63
  else none

/-- Reassemble bytes from a list of sextets: every full group of four
sextets yields three bytes, a trailing group of two or three sextets yields
one or two bytes, a single trailing sextet is dropped. -/
def decodeSextets : List Nat → List Nat
  | a :: b :: c :: d :: rest =>
      (a * 4 + b / 16) :: ((b % 16) * 16 + c / 4) :: ((c % 4) * 64 + d) ::
        decodeSextets rest
  | [a, b] => [a * 4 + b / 16]
  | [a, b, c] => [a * 4 + b / 16, (b % 16) * 16 + c / 4]
  | _ => []

/-- `Buffer.from(data, "base64")`: the byte list decoded from a base64
payload string. -/
def base64Decode (s : String) : List Nat :=
  decodeSextets (s.toList.filterMap base64Val)

/-- `interface AudioPlayerCommand` of `stream-audio.ts`: an executable
name, its argument list, and whether the file path must be interpolated
(`useFilePath`, absent in the source meaning `false`). -/
structure AudioPlayerCommand where
  cmd : String
  args : List String
  useFilePath : Bool := false
deriving DecidableEq, Repr

/-- `interface TtsConfig` of `stream-audio.ts`. -/
structure TtsConfig where
  speaker : String
  modelId : String
  audioFormat : String
  samplingRate : Nat
  speedAlpha : ℚ
  reduceLatency : Bool
  initialBufferSize : Nat
deriving DecidableEq, Repr

/-- `DEFAULT_CONFIG` of `stream-audio.ts`. -/
def DEFAULT_CONFIG : TtsConfig :=
  { speaker := "cove"
    modelId := "mistv2"
    audioFormat := "mp3"
    samplingRate := 22050
    speedAlpha := 1
    reduceLatency := true
    initialBufferSize := 2 }

/-- `Partial<TtsConfig>`, the type of `customConfig`: every field optional,
`none` meaning the caller did not supply the field. -/
structure CustomConfig where
  speaker : Option String := none
  modelId : Option String := none
  audioFormat : Option String := none
  samplingRate : Option Nat := none
  speedAlpha : Option ℚ := none
  reduceLatency : Option Bool := none
  initialBufferSize : Option Nat := none
deriving DecidableEq, Repr

/-- The spread `{ ...DEFAULT_CONFIG, ...customConfig }` in `playText`:
field-by-field shallow override of the defaults by the supplied fields. -/
def mergeConfig (c : CustomConfig) : TtsConfig :=
  { speaker := c.speaker.getD DEFAULT_CONFIG.speaker
    modelId := c.modelId.getD DEFAULT_CONFIG.modelId
    audioFormat := c.audioFormat.getD DEFAULT_CONFIG.audioFormat
    samplingRate := c.samplingRate.getD DEFAULT_CONFIG.samplingRate
    speedAlpha := c.speedAlpha.getD DEFAULT_CONFIG.speedAlpha
    reduceLatency := c.reduceLatency.getD DEFAULT_CONFIG.reduceLatency
    initialBufferSize := c.initialBufferSize.getD DEFAULT_CONFIG.initialBufferSize }

/-- The configuration `playText` uses: the optional `customConfig`
argument merged over the defaults (an absent argument spreads nothing). -/
def playTextConfig (customConfig : Option CustomConfig) : TtsConfig :=
  mergeConfig (customConfig.getD {})

/-- The candidate list probed on Linux and other non-darwin, non-win32
platforms, in source order. -/
def linuxPlayers : List AudioPlayerCommand :=
  [ { cmd := "ffplay"
      args := ["-nodisp", "-autoexit", "-hide_banner", "-loglevel", "error"] }
  , { cmd := "mpg123", args := [] }
  , { cmd := "mplayer", args := [] }
  , { cmd := "aplay", args := ["-q"] } ]

/-- The message of the error thrown when no candidate resolves. -/
def noPlayerMsg : String :=
  "No suitable audio player found. Please install mpg123, mplayer, aplay, or ffplay."

/-- The `for (const player of players)` probe loop: return the first
candidate whose executable resolves on the search path (`execSync` of
`which` succeeding), else throw. -/
def findPlayer (resolves : String → Bool) :
    List AudioPlayerCommand → Except String AudioPlayerCommand
  | [] => Except.error noPlayerMsg
  | p :: rest => if resolves p.cmd then Except.ok p else findPlayer resolves rest

/-- `getAudioPlayerCommand` of `stream-audio.ts`, with the host platform
string and the path-resolution check (`execSync("which ..."), execSync("where
...")` succeeding) passed explicitly. -/
def getAudioPlayerCommand (platform : String) (resolves : String → Bool) :
    Except String AudioPlayerCommand :=
  if platform = "darwin" then
    Except.ok { cmd := "afplay", args := [] }
  else if platform = "win32" then
    if resolves "ffplay" then
      Except.ok { cmd := "ffplay"
                  args := ["-nodisp", "-autoexit", "-hide_banner", "-loglevel", "error"] }
    else
      Except.ok { cmd := "powershell"
                  args := ["-c", "(New-Object Media.SoundPlayer \"$args[0]\").PlaySync()"]
                  useFilePath := true }
  else
    findPlayer resolves linuxPlayers

/-- `getApiKey` of `stream-audio.ts`: `!RIME_API_KEY` is true for an unset
variable and for the empty string, and then the function throws. -/
def getApiKey (envKey : Option String) : Except String String :=
  match envKey with
  | none => Except.error "RIME_API_KEY environment variable is not set"
  | some k =>
      if k = "" then Except.error "RIME_API_KEY environment variable is not set"
      else Except.ok k

/-- The error kinds a session's promise can reject with, each carrying the
message of the thrown `Error`. -/
inductive SessionError where
  /-- `getApiKey` threw before the session opened. -/
  | config (msg : String)
  /-- an `error`-typed WebSocket message from the remote service. -/
  | remote (msg : String)
  /-- the `catch` of the message handler: the event payload failed to parse. -/
  | parseFailure
  /-- the WebSocket `error` event (connection-level failure). -/
  | wsFailure (msg : String)
  /-- the player process `error` event (spawn or runtime failure). -/
  | playerFailure (msg : String)
  /-- `getAudioPlayerCommand` threw inside `startPlayback`. -/
  | noPlayer (msg : String)
deriving DecidableEq, Repr

/-- A parsed WebSocket message (`type WebSocketMessage`), plus the case
where `JSON.parse` or the shape check fails and the handler's `catch`
runs. -/
inductive WsMessage where
  | chunk (data : String)
  | timestamps
  | error (msg : String)
  | malformed
deriving DecidableEq, Repr

/-- The events delivered to the session's handlers, in arrival order:
WebSocket `open`/`message`/`close`/`error`, and the spawned player
process's `close` (exit with code) and `error` events. -/
inductive SessionEvent where
  | wsOpen
  | message (m : WsMessage)
  | wsClose
  | wsError (msg : String)
  | playerClose (code : Int)
  | playerError (msg : String)
deriving DecidableEq, Repr

/-- The host environment a session runs against: the platform string, the
path-resolution check used by the player probes, and whether `fs.rmSync`
inside `cleanup` throws (the `catch` there logs and continues). -/
structure Env where
  platform : String
  resolves : String → Bool
  cleanupFails : Bool

deriving instance DecidableEq for Except

/-- The mutable state captured by `playText`'s promise executor:
the bytes written to `audioFileStream`, whether the stream was ended,
`chunkCount`, `isPlaying`, how many times `spawn` was invoked, whether the
temporary directory still exists, and the promise's settlement (`none`
while pending; a promise settles at most once). -/
structure SessionState where
  fileContents : List Nat
  fileClosed : Bool
  chunkCount : Nat
  isPlaying : Bool
  spawnCount : Nat
  tmpDirExists : Bool
  outcome : Option (Except SessionError Unit)
deriving DecidableEq, Repr

/-- The state when the promise executor starts: empty file, counters zero,
temporary directory freshly created, promise pending. -/
def initState : SessionState :=
  { fileContents := []
    fileClosed := false
    chunkCount := 0
    isPlaying := false
    spawnCount := 0
    tmpDirExists := true
    outcome := none }

/-- `resolve`/`reject`: settle the promise, a no-op when it has already
settled. -/
def settle (s : SessionState) (r : Except SessionError Unit) : SessionState :=
  if s.outcome.isSome then s else { s with outcome := some r }

/-- The `cleanup` closure: `fs.rmSync(tmpDir, ...)` in a `try` whose
`catch` only logs, so a failing removal leaves the directory behind and
changes nothing else. -/
def cleanup (env : Env) (s : SessionState) : SessionState :=
  if env.cleanupFails then s else { s with tmpDirExists := false }

/-- The `startPlayback` closure: return immediately when already playing;
otherwise set `isPlaying` first, then resolve a player command and spawn
it (the spawned process's later events arrive as `SessionEvent`s), and on
a resolver throw run `cleanup` and reject. -/
def startPlayback (env : Env) (s : SessionState) : SessionState :=
  if s.isPlaying then s
  else
    let s1 := { s with isPlaying := true }
    match getAudioPlayerCommand env.platform env.resolves with
    | Except.ok _ => { s1 with spawnCount := s1.spawnCount + 1 }
    | Except.error msg => settle (cleanup env s1) (Except.error (SessionError.noPlayer msg))

/-- One event handler invocation.  `wsOpen` sends the text and schedules
the delayed `eos` frame, both of which act only on the remote side and are
not part of the modelled state.  A chunk message appends the decoded bytes
to the file, increments `chunkCount`, and starts playback once
`chunkCount >= config.initialBufferSize` and not yet playing.  `timestamps`
is accepted and ignored.  An `error` message or a parse failure runs
`cleanup` and rejects.  `wsClose` ends the file stream and starts playback
if it never started.  The player process events only exist once a process
was spawned; its `close` (any exit code) resolves after `cleanup`, its
`error` rejects after `cleanup`. -/
def stepEvent (env : Env) (config : TtsConfig) (s : SessionState) :
    SessionEvent → SessionState
  | SessionEvent.wsOpen => s
  | SessionEvent.message (WsMessage.chunk data) =>
      let audioBuffer := base64Decode data
      let s1 := { s with fileContents := s.fileContents ++ audioBuffer
                         chunkCount := s.chunkCount + 1 }
      if config.initialBufferSize ≤ s1.chunkCount ∧ s1.isPlaying = false then
        startPlayback env s1
      else s1
  | SessionEvent.message WsMessage.timestamps => s
  | SessionEvent.message (WsMessage.error msg) =>
      settle (cleanup env s) (Except.error (SessionError.remote msg))
  | SessionEvent.message WsMessage.malformed =>
      settle (cleanup env s) (Except.error SessionError.parseFailure)
  | SessionEvent.wsClose =>
      let s1 := { s with fileClosed := true }
      if s1.isPlaying then s1 else startPlayback env s1
  | SessionEvent.wsError msg =>
      settle (cleanup env s) (Except.error (SessionError.wsFailure msg))
  | SessionEvent.playerClose _ =>
      if s.spawnCount = 0 then s else settle (cleanup env s) (Except.ok ())
  | SessionEvent.playerError msg =>
      if s.spawnCount = 0 then s
      else settle (cleanup env s) (Except.error (SessionError.playerFailure msg))

/-- Deliver a list of events in order, each handler running to completion
before the next. -/
def runEvents (env : Env) (config : TtsConfig) (events : List SessionEvent)
    (s : SessionState) : SessionState :=
  events.foldl (stepEvent env config) s

/-- The chunk events for a list of base64 payloads, in order. -/
def chunkEvents (payloads : List String) : List SessionEvent :=
  payloads.map (fun p => SessionEvent.message (WsMessage.chunk p))

/-- The synchronous prefix of `playText` before the promise executor runs:
merge the configuration, read the API key (throwing rejects the returned
promise with the `ConfigError`), create the temporary directory; on
success the session starts in `initState`. -/
def playTextStart (envKey : Option String) : Except SessionError SessionState :=
  match getApiKey envKey with
  | Except.error msg => Except.error (SessionError.config msg)
  | Except.ok _ => Except.ok initState

/-- The arguments the MCP `speak` tool handler `doSpeak` receives
(`text` required, the rest optional). -/
structure SpeakParams where
  text : String
  speaker : Option String := none
  speedAlpha : Option ℚ := none
  reduceLatency : Option Bool := none
deriving DecidableEq, Repr

/-- JavaScript `v || d` on an optional string: `undefined` and the empty
string are falsy. -/
def jsOrString (v : Option String) (d : String) : String :=
  match v with
  | some s => if s = "" then d else s
  | none => d

/-- The call `doSpeak` makes into the streaming module:
`await playText(params.text)` — the text alone, no `customConfig`. -/
def doSpeakPlayTextCall (params : SpeakParams) : String × Option CustomConfig :=
  (params.text, none)

/-- The configuration the session started by `doSpeak` therefore uses. -/
def doSpeakConfig (params : SpeakParams) : TtsConfig :=
  playTextConfig (doSpeakPlayTextCall params).2

/-- The JSON body of `doSpeak`'s success response. -/
structure SpeakResponse where
  success : Bool
  text : String
  speaker : String
deriving DecidableEq, Repr

/-- The success response `doSpeak` returns:
`{ success: true, text: params.text, speaker: params.speaker || "cove" }`. -/
def doSpeakResponse (params : SpeakParams) : SpeakResponse :=
  { success := true
    text := params.text
    speaker := jsOrString params.speaker "cove" }

/-- `needle` occurs contiguously inside `hay`. -/
def strContains (hay needle : String) : Bool :=
  (List.range (hay.length + 1)).any
    (fun i => needle.toList.isPrefixOf (hay.toList.drop i))

/-- A session state with the tmp-directory flag forgotten (set to a fixed
value), used to state that `cleanup` failures affect nothing else. -/
def eraseTmp (s : SessionState) : SessionState :=
  { s with tmpDirExists := true }

/-- A macOS host: the player command is returned unconditionally. -/
def envDarwin : Env :=
  { platform := "darwin", resolves := fun _ => false, cleanupFails := false }

/-- A Linux host on which no candidate player resolves. -/
def envBare : Env :=
  { platform := "linux", resolves := fun _ => false, cleanupFails := false }

/-- A session state in which a player has been spawned. -/
def playingState : SessionState :=
  { initState with isPlaying := true, spawnCount := 1 }


@[simp] theorem settle_fileContents (s : SessionState) (r : Except SessionError Unit) :
    (settle s r).fileContents = s.fileContents := by
  unfold settle; split <;> rfl

@[simp] theorem settle_fileClosed (s : SessionState) (r : Except SessionError Unit) :
    (settle s r).fileClosed = s.fileClosed := by
  unfold settle; split <;> rfl

@[simp] theorem settle_chunkCount (s : SessionState) (r : Except SessionError Unit) :
    (settle s r).chunkCount = s.chunkCount := by
  unfold settle; split <;> rfl

@[simp] theorem settle_isPlaying (s : SessionState) (r : Except SessionError Unit) :
    (settle s r).isPlaying = s.isPlaying := by
  unfold settle; split <;> rfl

@[simp] theorem settle_spawnCount (s : SessionState) (r : Except SessionError Unit) :
    (settle s r).spawnCount = s.spawnCount := by
  unfold settle; split <;> rfl

@[simp] theorem settle_tmpDirExists (s : SessionState) (r : Except SessionError Unit) :
    (settle s r).tmpDirExists = s.tmpDirExists := by
  unfold settle; split <;> rfl

theorem settle_outcome_of_none (s : SessionState) (r : Except SessionError Unit)
    (h : s.outcome = none) : (settle s r).outcome = some r := by
  unfold settle; rw [h]; rfl

@[simp] theorem cleanup_fileContents (env : Env) (s : SessionState) :
    (cleanup env s).fileContents = s.fileContents := by
  unfold cleanup; split <;> rfl

@[simp] theorem cleanup_fileClosed (env : Env) (s : SessionState) :
    (cleanup env s).fileClosed = s.fileClosed := by
  unfold cleanup; split <;> rfl

@[simp] theorem cleanup_chunkCount (env : Env) (s : SessionState) :
    (cleanup env s).chunkCount = s.chunkCount := by
  unfold cleanup; split <;> rfl

@[simp] theorem cleanup_isPlaying (env : Env) (s : SessionState) :
    (cleanup env s).isPlaying = s.isPlaying := by
  unfold cleanup; split <;> rfl

@[simp] theorem cleanup_spawnCount (env : Env) (s : SessionState) :
    (cleanup env s).spawnCount = s.spawnCount := by
  unfold cleanup; split <;> rfl

@[simp] theorem cleanup_outcome (env : Env) (s : SessionState) :
    (cleanup env s).outcome = s.outcome := by
  unfold cleanup; split <;> rfl

theorem cleanup_tmpDirExists_of_ok (env : Env) (s : SessionState)
    (h : env.cleanupFails = false) : (cleanup env s).tmpDirExists = false := by
  unfold cleanup; rw [h]; rfl

theorem startPlayback_of_isPlaying (env : Env) (s : SessionState)
    (h : s.isPlaying = true) : startPlayback env s = s := by
  simp [startPlayback, h]

theorem startPlayback_ok (env : Env) (s : SessionState) (pl : AudioPlayerCommand)
    (hok : getAudioPlayerCommand env.platform env.resolves = Except.ok pl)
    (h : s.isPlaying = false) :
    startPlayback env s = { s with isPlaying := true, spawnCount := s.spawnCount + 1 } := by
  simp [startPlayback, h, hok]

theorem startPlayback_err (env : Env) (s : SessionState) (msg : String)
    (herr : getAudioPlayerCommand env.platform env.resolves = Except.error msg)
    (h : s.isPlaying = false) :
    startPlayback env s =
      settle (cleanup env { s with isPlaying := true })
        (Except.error (SessionError.noPlayer msg)) := by
  simp [startPlayback, h, herr]

@[simp] theorem startPlayback_fileContents (env : Env) (s : SessionState) :
    (startPlayback env s).fileContents = s.fileContents := by
  unfold startPlayback
  split
  · rfl
  · cases hc : getAudioPlayerCommand env.platform env.resolves <;> simp [hc]

@[simp] theorem startPlayback_fileClosed (env : Env) (s : SessionState) :
    (startPlayback env s).fileClosed = s.fileClosed := by
  unfold startPlayback
  split
  · rfl
  · cases hc : getAudioPlayerCommand env.platform env.resolves <;> simp [hc]

@[simp] theorem startPlayback_chunkCount (env : Env) (s : SessionState) :
    (startPlayback env s).chunkCount = s.chunkCount := by
  unfold startPlayback
  split
  · rfl
  · cases hc : getAudioPlayerCommand env.platform env.resolves <;> simp [hc]

@[simp] theorem startPlayback_isPlaying (env : Env) (s : SessionState) :
    (startPlayback env s).isPlaying = true := by
  unfold startPlayback
  split
  · assumption
  · cases hc : getAudioPlayerCommand env.platform env.resolves <;> simp [hc]

theorem stepChunk_fileContents (env : Env) (config : TtsConfig) (s : SessionState) (p : String) :
    (stepEvent env config s (SessionEvent.message (WsMessage.chunk p))).fileContents
      = s.fileContents ++ base64Decode p := by
  simp only [stepEvent]
  split
  · simp
  · rfl



theorem runEvents_nil (env : Env) (config : TtsConfig) (s : SessionState) :
    runEvents env config [] s = s := rfl

theorem runEvents_cons (env : Env) (config : TtsConfig) (e : SessionEvent)
    (es : List SessionEvent) (s : SessionState) :
    runEvents env config (e :: es) s = runEvents env config es (stepEvent env config s e) := rfl

theorem runEvents_append (env : Env) (config : TtsConfig) (es fs : List SessionEvent)
    (s : SessionState) :
    runEvents env config (es ++ fs) s = runEvents env config fs (runEvents env config es s) := by
  simp [runEvents, List.foldl_append]

theorem chunkEvents_cons (p : String) (ps : List String) :
    chunkEvents (p :: ps) = SessionEvent.message (WsMessage.chunk p) :: chunkEvents ps := rfl

theorem chunkEvents_append (ps qs : List String) :
    chunkEvents (ps ++ qs) = chunkEvents ps ++ chunkEvents qs := by
  simp [chunkEvents]

/-- Below the threshold and not yet playing, a block of chunk events only
appends bytes and counts chunks. -/
theorem runChunks_buffering (env : Env) (config : TtsConfig) :
    ∀ (ps : List String) (s : SessionState),
      s.isPlaying = false → s.chunkCount + ps.length < config.initialBufferSize →
      runEvents env config (chunkEvents ps) s =
        { s with fileContents := s.fileContents ++ (ps.map base64Decode).flatten
                 chunkCount := s.chunkCount + ps.length } := by
  intro ps
  induction ps with
  | nil => intro s _ _; simp [runEvents, chunkEvents]
  | cons p ps ih =>
      intro s hplay hlt
      rw [chunkEvents_cons, runEvents_cons]
      have hstep : stepEvent env config s (SessionEvent.message (WsMessage.chunk p)) =
          { s with fileContents := s.fileContents ++ base64Decode p
                   chunkCount := s.chunkCount + 1 } := by
        simp only [stepEvent]
        rw [if_neg]
        intro hc
        have : config.initialBufferSize ≤ s.chunkCount + 1 := hc.1
        simp only [List.length_cons] at hlt
        omega
      rw [hstep]
      rw [ih _ (by simpa using hplay) (by simp only [List.length_cons] at hlt ⊢; omega)]
      cases s
      simp [List.append_assoc, SessionState.mk.injEq]
      omega

/-- Once playing, a block of chunk events only appends bytes and counts
chunks; no second playback start occurs. -/
theorem runChunks_playing (env : Env) (config : TtsConfig) :
    ∀ (ps : List String) (s : SessionState),
      s.isPlaying = true →
      runEvents env config (chunkEvents ps) s =
        { s with fileContents := s.fileContents ++ (ps.map base64Decode).flatten
                 chunkCount := s.chunkCount + ps.length } := by
  intro ps
  induction ps with
  | nil => intro s _; simp [runEvents, chunkEvents]
  | cons p ps ih =>
      intro s hplay
      rw [chunkEvents_cons, runEvents_cons]
      have hstep : stepEvent env config s (SessionEvent.message (WsMessage.chunk p)) =
          { s with fileContents := s.fileContents ++ base64Decode p
                   chunkCount := s.chunkCount + 1 } := by
        simp only [stepEvent]
        rw [if_neg]
        intro hc
        rw [show ({ s with fileContents := s.fileContents ++ base64Decode p
                           chunkCount := s.chunkCount + 1 } : SessionState).isPlaying
              = s.isPlaying from rfl] at hc
        rw [hplay] at hc
        simp at hc
      rw [hstep]
      rw [ih _ (by simpa using hplay)]
      cases s
      simp [List.append_assoc, SessionState.mk.injEq]
      omega

/-- The chunk that reaches the threshold in a non-playing session starts
playback: with a resolvable player it spawns exactly one process. -/
theorem stepChunk_crossing (env : Env) (config : TtsConfig) (s : SessionState)
    (p : String) (pl : AudioPlayerCommand)
    (hplay : s.isPlaying = false)
    (hk : config.initialBufferSize ≤ s.chunkCount + 1)
    (hok : getAudioPlayerCommand env.platform env.resolves = Except.ok pl) :
    stepEvent env config s (SessionEvent.message (WsMessage.chunk p)) =
      { s with fileContents := s.fileContents ++ base64Decode p
               chunkCount := s.chunkCount + 1
               isPlaying := true
               spawnCount := s.spawnCount + 1 } := by
  simp only [stepEvent]
  rw [if_pos ⟨hk, by simpa using hplay⟩]
  rw [startPlayback_ok _ _ pl hok (by simpa using hplay)]



/-- C1: for every session and every sequence of chunk events delivered in
order, the bytes written to the session's audio file are exactly the
base64-decoded payloads concatenated in arrival order — no reordering,
duplication, or loss — regardless of chunk sizes and of whether playback
has already started (the starting state `s` is arbitrary, so any
`isPlaying`/`chunkCount` value is covered). -/
theorem file_bytes_are_chunk_concat (env : Env) (config : TtsConfig)
    (payloads : List String) :
    ∀ s : SessionState,
      (runEvents env config (chunkEvents payloads) s).fileContents
        = s.fileContents ++ (payloads.map base64Decode).flatten := by
  induction payloads with
  | nil => intro s; simp [runEvents, chunkEvents]
  | cons p ps ih =>
      intro s
      rw [chunkEvents_cons, runEvents_cons, ih, stepChunk_fileContents]
      simp [List.append_assoc]

/-- C7: `playText` merges the caller-supplied configuration into the
defaults by a shallow field-by-field override; every absent field takes
its default and an absent `customConfig` yields exactly the default
configuration. -/
theorem config_shallow_merge :
    ∀ c : CustomConfig,
      (mergeConfig c).speaker = c.speaker.getD "cove"
      ∧ (mergeConfig c).modelId = c.modelId.getD "mistv2"
      ∧ (mergeConfig c).audioFormat = c.audioFormat.getD "mp3"
      ∧ (mergeConfig c).samplingRate = c.samplingRate.getD 22050
      ∧ (mergeConfig c).speedAlpha = c.speedAlpha.getD 1
      ∧ (mergeConfig c).reduceLatency = c.reduceLatency.getD true
      ∧ (mergeConfig c).initialBufferSize = c.initialBufferSize.getD 2
      ∧ playTextConfig (some c) = mergeConfig c
      ∧ playTextConfig none = DEFAULT_CONFIG :=
  fun _ => ⟨rfl, rfl, rfl, rfl, rfl, rfl, rfl, rfl, rfl⟩

theorem findPlayer_eq_find (resolves : String → Bool) :
    ∀ l : List AudioPlayerCommand,
      findPlayer resolves l =
        match l.find? (fun pl => resolves pl.cmd) with
        | some pl => Except.ok pl
        | none => Except.error noPlayerMsg := by
  intro l
  induction l with
  | nil => rfl
  | cons p rest ih =>
      by_cases h : resolves p.cmd = true
      · simp [findPlayer, List.find?, h]
      · rw [show findPlayer resolves (p :: rest) = findPlayer resolves rest by
              simp [findPlayer, h]]
        rw [ih]
        simp [List.find?, h]

/-- C6: on platforms other than macOS and Windows the resolver probes the
candidates in the fixed order ffplay, mpg123, mplayer, aplay, returns the
first that path-resolves (each probe failure being non-fatal), and when
none resolves it fails exactly with the no-player error, whose message
names every attempted executable. -/
theorem resolver_probe_order (platform : String) (resolves : String → Bool)
    (h1 : platform ≠ "darwin") (h2 : platform ≠ "win32") :
    (getAudioPlayerCommand platform resolves =
        match linuxPlayers.find? (fun pl => resolves pl.cmd) with
        | some pl => Except.ok pl
        | none => Except.error noPlayerMsg)
    ∧ linuxPlayers.map AudioPlayerCommand.cmd = ["ffplay", "mpg123", "mplayer", "aplay"]
    ∧ strContains noPlayerMsg "ffplay" = true
    ∧ strContains noPlayerMsg "mpg123" = true
    ∧ strContains noPlayerMsg "mplayer" = true
    ∧ strContains noPlayerMsg "aplay" = true := by
  refine ⟨?_, by decide, by decide, by decide, by decide, by decide⟩
  rw [show getAudioPlayerCommand platform resolves = findPlayer resolves linuxPlayers by
        simp [getAudioPlayerCommand, h1, h2]]
  exact findPlayer_eq_find resolves linuxPlayers

/-- Witness for C6 at a Linux host with an empty search path: the probe
loop exhausts all candidates and the resolver returns the no-player
error. -/
theorem resolver_probe_order_witness :
    getAudioPlayerCommand "linux" (fun _ => false) = Except.error noPlayerMsg := by
  have h := (resolver_probe_order "linux" (fun _ => false)
    (by decide) (by decide)).1
  exact h.trans rfl



/-- The `speak` arguments of the C8 counterexample: a present but empty
`speaker` string. -/
def emptySpeakerParams : SpeakParams :=
  { text := "hello", speaker := some "" }

/-- C8 counterexample: with `speaker` present as the empty string, the
requested speaker is `""` but the response echoes `"cove"`, because the
code uses the JavaScript truthiness check `params.speaker || "cove"`.  The
claim's "echoes the requested speaker (or 'cove' if absent)" therefore
fails at this input. -/
theorem speak_echo_empty_speaker :
    emptySpeakerParams.speaker = some ""
    ∧ (doSpeakResponse emptySpeakerParams).speaker = "cove"
    ∧ emptySpeakerParams.speaker.getD "cove" ≠ (doSpeakResponse emptySpeakerParams).speaker := by
  decide

/-- C8 (amended): the `speak` tool's optional `speaker`, `speedAlpha` and
`reduceLatency` arguments have no effect on synthesis or playback —
`doSpeak` calls `playText` with the text alone, so the default
configuration is always used and any two invocations with the same text
make the identical `playText` call; the success response echoes the
requested speaker when it is a non-empty string and `"cove"` when it is
absent or empty. -/
theorem speak_args_no_effect :
    ∀ p : SpeakParams,
      doSpeakPlayTextCall p = (p.text, none)
      ∧ doSpeakConfig p = DEFAULT_CONFIG
      ∧ (∀ q : SpeakParams, q.text = p.text → doSpeakPlayTextCall q = doSpeakPlayTextCall p)
      ∧ (doSpeakResponse p).success = true
      ∧ (doSpeakResponse p).text = p.text
      ∧ (doSpeakResponse p).speaker = jsOrString p.speaker "cove" := by
  intro p
  refine ⟨rfl, rfl, ?_, rfl, rfl, rfl⟩
  intro q hq
  simp [doSpeakPlayTextCall, hq]

/-- Witness for C8 (amended): two invocations sharing the text but
differing in every optional argument make the identical `playText` call. -/
theorem speak_args_no_effect_witness :
    doSpeakPlayTextCall
        { text := "hi", speaker := some "ana", speedAlpha := some 2,
          reduceLatency := some false }
      = doSpeakPlayTextCall { text := "hi" } :=
  (speak_args_no_effect { text := "hi" }).2.2.1 _ rfl

/-- C10: with a zero buffering threshold, playback never starts at session
open — the threshold comparison runs only inside the chunk handler — so
the player is first spawned at the first chunk event, or at the transport
close event when no chunk ever arrives. -/
theorem zero_threshold_no_start_at_open (env : Env) (config : TtsConfig) (p : String)
    (pl : AudioPlayerCommand)
    (hzero : config.initialBufferSize = 0)
    (hok : getAudioPlayerCommand env.platform env.resolves = Except.ok pl) :
    initState.isPlaying = false
    ∧ initState.spawnCount = 0
    ∧ stepEvent env config initState SessionEvent.wsOpen = initState
    ∧ (runEvents env config [SessionEvent.wsOpen,
         SessionEvent.message (WsMessage.chunk p)] initState).spawnCount = 1
    ∧ (runEvents env config [SessionEvent.wsOpen, SessionEvent.wsClose]
         initState).spawnCount = 1 := by
  refine ⟨rfl, rfl, rfl, ?_, ?_⟩
  · show (stepEvent env config (stepEvent env config initState SessionEvent.wsOpen)
      (SessionEvent.message (WsMessage.chunk p))).spawnCount = 1
    rw [show stepEvent env config initState SessionEvent.wsOpen = initState from rfl]
    rw [stepChunk_crossing env config initState p pl rfl
      (by rw [hzero]; exact Nat.zero_le _) hok]
    rfl
  · show (stepEvent env config (stepEvent env config initState SessionEvent.wsOpen)
      SessionEvent.wsClose).spawnCount = 1
    rw [show stepEvent env config initState SessionEvent.wsOpen = initState from rfl]
    rw [show stepEvent env config initState SessionEvent.wsClose
          = startPlayback env { initState with fileClosed := true } from rfl]
    rw [startPlayback_ok env _ pl hok rfl]
    rfl

/-- A default configuration with the buffering threshold set to zero. -/
def configZero : TtsConfig :=
  { DEFAULT_CONFIG with initialBufferSize := 0 }

/-- Witness for C10 on a macOS host with threshold zero. -/
theorem zero_threshold_no_start_at_open_witness :
    (runEvents envDarwin configZero [SessionEvent.wsOpen,
        SessionEvent.message (WsMessage.chunk "QQ==")] initState).spawnCount = 1
    ∧ (runEvents envDarwin configZero [SessionEvent.wsOpen, SessionEvent.wsClose]
        initState).spawnCount = 1 := by
  have h := zero_threshold_no_start_at_open envDarwin configZero "QQ=="
    { cmd := "afplay", args := [] } rfl rfl
  exact ⟨h.2.2.2.1, h.2.2.2.2⟩

/-- C5: whenever the spawned player process exits — with any exit code,
including non-zero — the session completes: the temporary directory is
deleted and the promise resolves successfully; a non-zero exit code is
never treated as a failure of the session. -/
theorem player_exit_completes (env : Env) (config : TtsConfig) (s : SessionState)
    (code : Int)
    (hpending : s.outcome = none)
    (hspawned : s.spawnCount ≠ 0)
    (hclean : env.cleanupFails = false) :
    (stepEvent env config s (SessionEvent.playerClose code)).outcome = some (Except.ok ())
    ∧ (stepEvent env config s (SessionEvent.playerClose code)).tmpDirExists = false := by
  constructor
  · show (if s.spawnCount = 0 then s else settle (cleanup env s) (Except.ok ())).outcome
      = some (Except.ok ())
    rw [if_neg hspawned]
    exact settle_outcome_of_none _ _ (by rw [cleanup_outcome]; exact hpending)
  · show (if s.spawnCount = 0 then s else settle (cleanup env s) (Except.ok ())).tmpDirExists
      = false
    rw [if_neg hspawned, settle_tmpDirExists]
    exact cleanup_tmpDirExists_of_ok env s hclean

/-- Witness for C5: a pending session with a spawned player whose process
exits with the non-zero code 1 still resolves and deletes the temporary
directory. -/
theorem player_exit_completes_witness :
    (stepEvent envDarwin DEFAULT_CONFIG playingState (SessionEvent.playerClose 1)).outcome
      = some (Except.ok ())
    ∧ (stepEvent envDarwin DEFAULT_CONFIG playingState
        (SessionEvent.playerClose 1)).tmpDirExists = false :=
  player_exit_completes envDarwin DEFAULT_CONFIG playingState 1 rfl (by decide) rfl

/-- C3 counterexample: a remote error event delivered to a fresh session
rejects the promise and removes the temporary directory, but does not
close the chunk sink — `fileClosed` stays `false` — refuting the claim's
"the chunk sink is closed first". -/
theorem error_event_sink_not_closed :
    (stepEvent envDarwin DEFAULT_CONFIG initState
        (SessionEvent.message (WsMessage.error "boom"))).fileClosed = false
    ∧ (stepEvent envDarwin DEFAULT_CONFIG initState
        (SessionEvent.message (WsMessage.error "boom"))).outcome
      = some (Except.error (SessionError.remote "boom")) := by
  decide

/-- C3 (amended): whenever the transport delivers an explicit error event
while the promise is pending, the session fails directly: the temporary
directory is removed (its removal succeeding) and the promise rejects with
an error carrying the remote-reported message; the chunk sink is left open
by this handler — `fileClosed` is unchanged, the sink being closed only by
the transport close event. -/
theorem error_event_rejects_and_cleans (env : Env) (config : TtsConfig)
    (s : SessionState) (msg : String)
    (hpending : s.outcome = none)
    (hclean : env.cleanupFails = false) :
    (stepEvent env config s (SessionEvent.message (WsMessage.error msg))).outcome
      = some (Except.error (SessionError.remote msg))
    ∧ (stepEvent env config s (SessionEvent.message (WsMessage.error msg))).tmpDirExists
      = false
    ∧ (stepEvent env config s (SessionEvent.message (WsMessage.error msg))).fileClosed
      = s.fileClosed := by
  refine ⟨?_, ?_, ?_⟩
  · exact settle_outcome_of_none _ _ (by rw [cleanup_outcome]; exact hpending)
  · show (settle (cleanup env s) (Except.error (SessionError.remote msg))).tmpDirExists = false
    rw [settle_tmpDirExists]
    exact cleanup_tmpDirExists_of_ok env s hclean
  · simp [stepEvent]

/-- Witness for C3 (amended) at a playing session receiving a remote
error. -/
theorem error_event_rejects_and_cleans_witness :
    (stepEvent envDarwin DEFAULT_CONFIG playingState
        (SessionEvent.message (WsMessage.error "oops"))).outcome
      = some (Except.error (SessionError.remote "oops")) :=
  (error_event_rejects_and_cleans envDarwin DEFAULT_CONFIG playingState "oops" rfl rfl).1



/-- The spawn invariant: never more than one spawned process, and none at
all while `isPlaying` is still false. -/
def spawnInv (s : SessionState) : Prop :=
  s.spawnCount ≤ 1 ∧ (s.isPlaying = false → s.spawnCount = 0)

theorem spawnInv_settle_cleanup (env : Env) (s : SessionState)
    (r : Except SessionError Unit) (h : spawnInv s) :
    spawnInv (settle (cleanup env s) r) := by
  constructor
  · rw [settle_spawnCount, cleanup_spawnCount]; exact h.1
  · intro hf
    rw [settle_isPlaying, cleanup_isPlaying] at hf
    rw [settle_spawnCount, cleanup_spawnCount]
    exact h.2 hf

theorem startPlayback_spawnInv (env : Env) (s : SessionState) (h : spawnInv s) :
    spawnInv (startPlayback env s) := by
  by_cases hp : s.isPlaying = true
  · rw [startPlayback_of_isPlaying env s hp]; exact h
  · have hp' : s.isPlaying = false := by revert hp; cases s.isPlaying <;> simp
    have h0 : s.spawnCount = 0 := h.2 hp'
    cases hc : getAudioPlayerCommand env.platform env.resolves with
    | ok pl =>
        rw [startPlayback_ok env s pl hc hp']
        constructor
        · show s.spawnCount + 1 ≤ 1; omega
        · intro hfalse; simp at hfalse
    | error msg =>
        rw [startPlayback_err env s msg hc hp']
        apply spawnInv_settle_cleanup
        constructor
        · show s.spawnCount ≤ 1; exact h.1
        · intro hfalse; simp at hfalse

theorem stepEvent_spawnInv (env : Env) (config : TtsConfig) (s : SessionState)
    (e : SessionEvent) (h : spawnInv s) : spawnInv (stepEvent env config s e) := by
  cases e with
  | wsOpen => exact h
  | message m =>
      cases m with
      | chunk data =>
          simp only [stepEvent]
          split
          · exact startPlayback_spawnInv env _ h
          · exact h
      | timestamps => exact h
      | error msg => exact spawnInv_settle_cleanup env s _ h
      | malformed => exact spawnInv_settle_cleanup env s _ h
  | wsClose =>
      simp only [stepEvent]
      split
      · exact h
      · exact startPlayback_spawnInv env _ h
  | wsError msg => exact spawnInv_settle_cleanup env s _ h
  | playerClose code =>
      simp only [stepEvent]
      split
      · exact h
      · exact spawnInv_settle_cleanup env s _ h
  | playerError msg =>
      simp only [stepEvent]
      split
      · exact h
      · exact spawnInv_settle_cleanup env s _ h

theorem runEvents_spawnInv (env : Env) (config : TtsConfig) :
    ∀ (events : List SessionEvent) (s : SessionState),
      spawnInv s → spawnInv (runEvents env config events s) := by
  intro events
  induction events with
  | nil => intro s h; exact h
  | cons e es ih =>
      intro s h
      rw [runEvents_cons]
      exact ih _ (stepEvent_spawnInv env config s e h)

/-- C9: for every sequence and interleaving of transport and player
events, the session spawns at most one player process; `startPlayback`
returns immediately when `isPlaying` is already true, and `isPlaying` is
true from the moment `startPlayback` runs, before any later spawn could
occur. -/
theorem at_most_one_spawn :
    (∀ (env : Env) (config : TtsConfig) (events : List SessionEvent),
        (runEvents env config events initState).spawnCount ≤ 1)
    ∧ (∀ (env : Env) (s : SessionState), s.isPlaying = true → startPlayback env s = s)
    ∧ (∀ (env : Env) (s : SessionState), (startPlayback env s).isPlaying = true) := by
  refine ⟨?_, startPlayback_of_isPlaying, fun env s => startPlayback_isPlaying env s⟩
  intro env config events
  exact (runEvents_spawnInv env config events initState ⟨Nat.zero_le _, fun _ => rfl⟩).1

/-- Witness for C9: a second `startPlayback` on a session that is already
playing changes nothing. -/
theorem at_most_one_spawn_witness :
    startPlayback envDarwin playingState = playingState :=
  at_most_one_spawn.2.1 envDarwin playingState rfl

theorem runEvents_singleton (env : Env) (config : TtsConfig) (e : SessionEvent)
    (s : SessionState) : runEvents env config [e] s = stepEvent env config s e := rfl

/-- The transport close on a session that never started playing: end the
file stream, then start playback; with a resolvable player this spawns. -/
theorem stepClose_not_playing (env : Env) (config : TtsConfig) (s : SessionState)
    (pl : AudioPlayerCommand)
    (hplay : s.isPlaying = false)
    (hok : getAudioPlayerCommand env.platform env.resolves = Except.ok pl) :
    stepEvent env config s SessionEvent.wsClose =
      { s with fileClosed := true, isPlaying := true, spawnCount := s.spawnCount + 1 } := by
  show (if ({ s with fileClosed := true } : SessionState).isPlaying = true
        then ({ s with fileClosed := true } : SessionState)
        else startPlayback env { s with fileClosed := true }) = _
  rw [if_neg (by simp [hplay])]
  rw [startPlayback_ok env _ pl hok (by simpa using hplay)]

/-- The transport close on a session that is already playing only ends the
file stream. -/
theorem stepClose_playing (env : Env) (config : TtsConfig) (s : SessionState)
    (hplay : s.isPlaying = true) :
    stepEvent env config s SessionEvent.wsClose = { s with fileClosed := true } := by
  show (if ({ s with fileClosed := true } : SessionState).isPlaying = true
        then ({ s with fileClosed := true } : SessionState)
        else startPlayback env { s with fileClosed := true }) = _
  rw [if_pos (by simpa using hplay)]



/-- Running the first `K` chunk events from a fresh session, when at least
`K = initialBufferSize ≥ 1` payloads exist: the first `K - 1` chunks only
buffer, the `K`-th starts playback. -/
theorem runChunks_toThreshold (env : Env) (config : TtsConfig) (ps : List String)
    (pl : AudioPlayerCommand)
    (hok : getAudioPlayerCommand env.platform env.resolves = Except.ok pl)
    (hk : 1 ≤ config.initialBufferSize)
    (hge : config.initialBufferSize ≤ ps.length) :
    runEvents env config (chunkEvents (ps.take config.initialBufferSize)) initState =
      { initState with
          fileContents := ((ps.take config.initialBufferSize).map base64Decode).flatten
          chunkCount := config.initialBufferSize
          isPlaying := true
          spawnCount := 1 } := by
  have hlt' : config.initialBufferSize - 1 < ps.length := by omega
  have hK : config.initialBufferSize - 1 + 1 = config.initialBufferSize := by omega
  have hlen1 : (ps.take (config.initialBufferSize - 1)).length
      = config.initialBufferSize - 1 := by
    rw [List.length_take]; omega
  have hbuf := runChunks_buffering env config (ps.take (config.initialBufferSize - 1))
    initState rfl
    (by show 0 + (ps.take (config.initialBufferSize - 1)).length < config.initialBufferSize
        rw [hlen1]; omega)
  have htake : ps.take config.initialBufferSize
      = ps.take (config.initialBufferSize - 1) ++ [ps.get ⟨config.initialBufferSize - 1, hlt'⟩] := by
    conv_lhs => rw [← hK]
    rw [List.take_succ]
    rw [List.getElem?_eq_getElem hlt']
    rfl
  rw [htake, chunkEvents_append, runEvents_append, hbuf]
  rw [show chunkEvents [ps.get ⟨config.initialBufferSize - 1, hlt'⟩]
        = [SessionEvent.message (WsMessage.chunk (ps.get ⟨config.initialBufferSize - 1, hlt'⟩))]
      from rfl]
  rw [runEvents_singleton]
  rw [stepChunk_crossing env config _ _ pl rfl
    (by show config.initialBufferSize ≤ 0 + (ps.take (config.initialBufferSize - 1)).length + 1
        rw [hlen1]; omega) hok]
  simp [initState, SessionState.mk.injEq, hlen1, List.flatten_append]
  refine ⟨?_, by omega⟩
  rw [List.take_succ, List.flatten_append]
  congr 1
  have hidx : (List.map base64Decode ps)[config.initialBufferSize - 1]?
      = some (base64Decode (ps.get ⟨config.initialBufferSize - 1, hlt'⟩)) := by
    rw [List.getElem?_map, List.getElem?_eq_getElem hlt']
    rfl
  rw [hidx]
  simp

/-- C2: with buffering threshold `K = initialBufferSize ≥ 1` and a
resolvable player: when at least `K` chunks arrive before the transport
closes, playback starts exactly once, triggered by the `K`-th chunk (no
spawn after `K - 1` chunks, exactly one after `K`, with exactly the first
`K` chunks written at that moment) and no further spawn happens on the
remaining chunks or the close; when fewer than `K` chunks ever arrive and
the transport closes, playback still starts exactly once, triggered by the
close, using exactly the chunks received (the sink closed first). -/
theorem playback_threshold_start (env : Env) (config : TtsConfig) (ps : List String)
    (pl : AudioPlayerCommand)
    (hok : getAudioPlayerCommand env.platform env.resolves = Except.ok pl)
    (hk : 1 ≤ config.initialBufferSize) :
    (config.initialBufferSize ≤ ps.length →
        (runEvents env config (chunkEvents (ps.take (config.initialBufferSize - 1)))
            initState).spawnCount = 0
        ∧ (runEvents env config (chunkEvents (ps.take config.initialBufferSize))
            initState).spawnCount = 1
        ∧ (runEvents env config (chunkEvents (ps.take config.initialBufferSize))
            initState).isPlaying = true
        ∧ (runEvents env config (chunkEvents (ps.take config.initialBufferSize))
            initState).fileContents
          = ((ps.take config.initialBufferSize).map base64Decode).flatten
        ∧ (runEvents env config (chunkEvents ps ++ [SessionEvent.wsClose])
            initState).spawnCount = 1)
    ∧ (ps.length < config.initialBufferSize →
        (runEvents env config (chunkEvents ps ++ [SessionEvent.wsClose])
            initState).spawnCount = 1
        ∧ (runEvents env config (chunkEvents ps ++ [SessionEvent.wsClose])
            initState).isPlaying = true
        ∧ (runEvents env config (chunkEvents ps ++ [SessionEvent.wsClose])
            initState).fileContents = (ps.map base64Decode).flatten
        ∧ (runEvents env config (chunkEvents ps ++ [SessionEvent.wsClose])
            initState).fileClosed = true) := by
  constructor
  · intro hge
    have hlen1 : (ps.take (config.initialBufferSize - 1)).length
        = config.initialBufferSize - 1 := by
      rw [List.length_take]; omega
    have hbuf := runChunks_buffering env config (ps.take (config.initialBufferSize - 1))
      initState rfl
      (by show 0 + (ps.take (config.initialBufferSize - 1)).length < config.initialBufferSize
          rw [hlen1]; omega)
    have hrunK := runChunks_toThreshold env config ps pl hok hk hge
    have hall : runEvents env config (chunkEvents ps ++ [SessionEvent.wsClose])
        initState =
        { initState with
            fileContents := (ps.map base64Decode).flatten
            chunkCount := ps.length
            isPlaying := true
            spawnCount := 1
            fileClosed := true } := by
      conv_lhs => rw [show ps = ps.take config.initialBufferSize
        ++ ps.drop config.initialBufferSize from (List.take_append_drop _ ps).symm]
      rw [chunkEvents_append, runEvents_append, runEvents_append, hrunK]
      rw [runChunks_playing env config _ _ rfl]
      rw [runEvents_singleton, stepClose_playing env config _ rfl]
      simp [initState, SessionState.mk.injEq, List.flatten_append]
      constructor
      · rw [← List.flatten_append, List.take_append_drop]
      · omega
    refine ⟨by rw [hbuf]; rfl, by rw [hrunK], by rw [hrunK], by rw [hrunK], by rw [hall]⟩
  · intro hlt
    have hbuf := runChunks_buffering env config ps initState rfl
      (by simp [initState]; omega)
    rw [runEvents_append, hbuf, runEvents_singleton]
    rw [stepClose_not_playing env config _ pl rfl hok]
    refine ⟨rfl, rfl, by simp [initState], rfl⟩



/-- Witness for C2: the spec scenario — threshold 2, three chunks then
close — playback starts at the second chunk and exactly one player is
spawned over the whole session; with a single chunk then close, playback
starts at the close. -/
theorem playback_threshold_start_witness :
    (runEvents envDarwin DEFAULT_CONFIG
        (chunkEvents (["QQ==", "Qg==", "Qw=="].take DEFAULT_CONFIG.initialBufferSize))
        initState).spawnCount = 1
    ∧ (runEvents envDarwin DEFAULT_CONFIG
        (chunkEvents ["QQ==", "Qg==", "Qw=="] ++ [SessionEvent.wsClose])
        initState).spawnCount = 1
    ∧ (runEvents envDarwin DEFAULT_CONFIG
        (chunkEvents ["QQ=="] ++ [SessionEvent.wsClose]) initState).spawnCount = 1 := by
  have h3 := playback_threshold_start envDarwin DEFAULT_CONFIG ["QQ==", "Qg==", "Qw=="]
    { cmd := "afplay", args := [] } rfl (by decide)
  have h1 := playback_threshold_start envDarwin DEFAULT_CONFIG ["QQ=="]
    { cmd := "afplay", args := [] } rfl (by decide)
  exact ⟨(h3.1 (by decide)).2.1, (h3.1 (by decide)).2.2.2.2, (h1.2 (by decide)).1⟩

theorem eraseTmp_cleanup (env : Env) (s : SessionState) :
    eraseTmp (cleanup env s) = eraseTmp s := by
  unfold cleanup
  split
  · rfl
  · cases s; rfl

theorem eraseTmp_settle (s : SessionState) (r : Except SessionError Unit) :
    eraseTmp (settle s r) = settle (eraseTmp s) r := by
  unfold settle
  by_cases h : s.outcome.isSome = true
  · rw [if_pos h, if_pos (show (eraseTmp s).outcome.isSome = true from h)]
  · rw [if_neg h, if_neg (show ¬ (eraseTmp s).outcome.isSome = true from h)]
    cases s
    rfl

theorem startPlayback_cleanupFails (env : Env) (b : Bool) (s : SessionState) :
    eraseTmp (startPlayback { env with cleanupFails := b } s)
      = eraseTmp (startPlayback env s) := by
  cases env with
  | mk p r c =>
      unfold startPlayback
      by_cases hp : s.isPlaying = true
      · rw [if_pos hp, if_pos hp]
      · rw [if_neg hp, if_neg hp]
        cases hc : getAudioPlayerCommand p r with
        | ok pl => simp [hc]
        | error m => simp [hc, eraseTmp_settle, eraseTmp_cleanup]

theorem startPlayback_tmpDir (env : Env) (f : List Nat) (fc : Bool) (cc : Nat)
    (ip : Bool) (sp : Nat) (t1 t2 : Bool) (o : Option (Except SessionError Unit)) :
    eraseTmp (startPlayback env ⟨f, fc, cc, ip, sp, t1, o⟩)
      = eraseTmp (startPlayback env ⟨f, fc, cc, ip, sp, t2, o⟩) := by
  unfold startPlayback
  cases hp : ip with
  | true => rfl
  | false =>
      rw [if_neg (show ¬(false = true) from by decide),
          if_neg (show ¬(false = true) from by decide)]
      cases hc : getAudioPlayerCommand env.platform env.resolves with
      | ok pl => simp only [hc]; rfl
      | error m =>
          simp only [hc]
          rw [eraseTmp_settle, eraseTmp_settle, eraseTmp_cleanup, eraseTmp_cleanup]
          rfl

theorem stepEvent_cleanupFails (env : Env) (b : Bool) (config : TtsConfig)
    (s : SessionState) (e : SessionEvent) :
    eraseTmp (stepEvent { env with cleanupFails := b } config s e)
      = eraseTmp (stepEvent env config s e) := by
  cases e with
  | wsOpen => rfl
  | message m =>
      cases m with
      | chunk data =>
          simp only [stepEvent]
          split_ifs
          · exact startPlayback_cleanupFails env b _
          · rfl
      | timestamps => rfl
      | error msg => simp [stepEvent, eraseTmp_settle, eraseTmp_cleanup]
      | malformed => simp [stepEvent, eraseTmp_settle, eraseTmp_cleanup]
  | wsClose =>
      simp only [stepEvent]
      split_ifs
      · rfl
      · exact startPlayback_cleanupFails env b _
  | wsError msg => simp [stepEvent, eraseTmp_settle, eraseTmp_cleanup]
  | playerClose code =>
      simp only [stepEvent]
      split_ifs
      · rfl
      · simp [eraseTmp_settle, eraseTmp_cleanup]
  | playerError msg =>
      simp only [stepEvent]
      split_ifs
      · rfl
      · simp [eraseTmp_settle, eraseTmp_cleanup]

theorem stepEvent_tmpDir (env : Env) (config : TtsConfig) (f : List Nat) (fc : Bool)
    (cc : Nat) (ip : Bool) (sp : Nat) (t1 t2 : Bool)
    (o : Option (Except SessionError Unit)) (e : SessionEvent) :
    eraseTmp (stepEvent env config ⟨f, fc, cc, ip, sp, t1, o⟩ e)
      = eraseTmp (stepEvent env config ⟨f, fc, cc, ip, sp, t2, o⟩ e) := by
  cases e with
  | wsOpen => rfl
  | message m =>
      cases m with
      | chunk data =>
          simp only [stepEvent]
          by_cases hg : config.initialBufferSize ≤ cc + 1 ∧ ip = false
          · rw [if_pos hg, if_pos hg]
            exact startPlayback_tmpDir env _ _ _ _ _ t1 t2 _
          · rw [if_neg hg, if_neg hg]
            rfl
      | timestamps => rfl
      | error msg =>
          show eraseTmp (settle (cleanup env _) _) = eraseTmp (settle (cleanup env _) _)
          rw [eraseTmp_settle, eraseTmp_settle, eraseTmp_cleanup, eraseTmp_cleanup]
          rfl
      | malformed =>
          show eraseTmp (settle (cleanup env _) _) = eraseTmp (settle (cleanup env _) _)
          rw [eraseTmp_settle, eraseTmp_settle, eraseTmp_cleanup, eraseTmp_cleanup]
          rfl
  | wsClose =>
      simp only [stepEvent]
      cases hp : ip with
      | true => rfl
      | false =>
          rw [if_neg (show ¬(false = true) from by decide),
              if_neg (show ¬(false = true) from by decide)]
          exact startPlayback_tmpDir env _ _ _ _ _ t1 t2 _
  | wsError msg =>
      show eraseTmp (settle (cleanup env _) _) = eraseTmp (settle (cleanup env _) _)
      rw [eraseTmp_settle, eraseTmp_settle, eraseTmp_cleanup, eraseTmp_cleanup]
      rfl
  | playerClose code =>
      simp only [stepEvent]
      by_cases hsp : sp = 0
      · rw [if_pos hsp, if_pos hsp]
        rfl
      · rw [if_neg hsp, if_neg hsp]
        rw [eraseTmp_settle, eraseTmp_settle, eraseTmp_cleanup, eraseTmp_cleanup]
        rfl
  | playerError msg =>
      simp only [stepEvent]
      by_cases hsp : sp = 0
      · rw [if_pos hsp, if_pos hsp]
        rfl
      · rw [if_neg hsp, if_neg hsp]
        rw [eraseTmp_settle, eraseTmp_settle, eraseTmp_cleanup, eraseTmp_cleanup]
        rfl

theorem runEvents_eraseTmp (env : Env) (b : Bool) (config : TtsConfig) :
    ∀ (events : List SessionEvent) (s1 s2 : SessionState),
      eraseTmp s1 = eraseTmp s2 →
      eraseTmp (runEvents { env with cleanupFails := b } config events s1)
        = eraseTmp (runEvents env config events s2) := by
  intro events
  induction events with
  | nil => intro s1 s2 h; exact h
  | cons e es ih =>
      intro s1 s2 h
      rw [runEvents_cons, runEvents_cons]
      apply ih
      have h2 : s2 = { s1 with tmpDirExists := s2.tmpDirExists } := by
        cases s1; cases s2
        simp [eraseTmp, SessionState.mk.injEq] at h
        simp [SessionState.mk.injEq]
        exact ⟨h.1.symm, h.2.1.symm, h.2.2.1.symm, h.2.2.2.1.symm, h.2.2.2.2.1.symm,
          h.2.2.2.2.2.symm⟩
      calc eraseTmp (stepEvent { env with cleanupFails := b } config s1 e)
          = eraseTmp (stepEvent env config s1 e) := stepEvent_cleanupFails env b config s1 e
        _ = eraseTmp (stepEvent env config { s1 with tmpDirExists := s2.tmpDirExists } e) := by
            cases s1
            exact (stepEvent_tmpDir env config _ _ _ _ _ _ _ _ e).symm
        _ = eraseTmp (stepEvent env config s2 e) := by rw [← h2]



/-- C4: every error kind — missing (or empty) `RIME_API_KEY`, transport
connection failure, remote error event, no player available on close,
player spawn or runtime failure — surfaces to the caller of `playText` by
rejecting the promise while it is pending; and a failure of the
temporary-directory cleanup itself never changes the session's settled
outcome for any event sequence. -/
theorem errors_surface_to_caller :
    (∀ k : Option String, k = none ∨ k = some "" →
        playTextStart k
          = Except.error (SessionError.config "RIME_API_KEY environment variable is not set"))
    ∧ (∀ (env : Env) (config : TtsConfig) (s : SessionState) (msg : String),
        s.outcome = none →
        (stepEvent env config s (SessionEvent.wsError msg)).outcome
          = some (Except.error (SessionError.wsFailure msg)))
    ∧ (∀ (env : Env) (config : TtsConfig) (s : SessionState) (msg : String),
        s.outcome = none →
        (stepEvent env config s (SessionEvent.message (WsMessage.error msg))).outcome
          = some (Except.error (SessionError.remote msg)))
    ∧ (∀ (env : Env) (config : TtsConfig) (s : SessionState) (msg : String),
        s.outcome = none → s.isPlaying = false →
        getAudioPlayerCommand env.platform env.resolves = Except.error msg →
        (stepEvent env config s SessionEvent.wsClose).outcome
          = some (Except.error (SessionError.noPlayer msg)))
    ∧ (∀ (env : Env) (config : TtsConfig) (s : SessionState) (msg : String),
        s.outcome = none → s.spawnCount ≠ 0 →
        (stepEvent env config s (SessionEvent.playerError msg)).outcome
          = some (Except.error (SessionError.playerFailure msg)))
    ∧ (∀ (env : Env) (b : Bool) (config : TtsConfig) (events : List SessionEvent),
        (runEvents { env with cleanupFails := b } config events initState).outcome
          = (runEvents env config events initState).outcome) := by
  refine ⟨?_, ?_, ?_, ?_, ?_, ?_⟩
  · intro k hk
    rcases hk with h | h <;> rw [h] <;> rfl
  · intro env config s msg hpending
    exact settle_outcome_of_none _ _ (by rw [cleanup_outcome]; exact hpending)
  · intro env config s msg hpending
    exact settle_outcome_of_none _ _ (by rw [cleanup_outcome]; exact hpending)
  · intro env config s msg hpending hplay herr
    rw [show stepEvent env config s SessionEvent.wsClose
          = (if ({ s with fileClosed := true } : SessionState).isPlaying = true
             then ({ s with fileClosed := true } : SessionState)
             else startPlayback env { s with fileClosed := true }) from rfl]
    rw [if_neg (by simp [hplay])]
    rw [startPlayback_err env _ msg herr (by simpa using hplay)]
    exact settle_outcome_of_none _ _ (by rw [cleanup_outcome]; exact hpending)
  · intro env config s msg hpending hspawn
    rw [show stepEvent env config s (SessionEvent.playerError msg)
          = (if s.spawnCount = 0 then s
             else settle (cleanup env s)
               (Except.error (SessionError.playerFailure msg))) from rfl]
    rw [if_neg hspawn]
    exact settle_outcome_of_none _ _ (by rw [cleanup_outcome]; exact hpending)
  · intro env b config events
    have h := runEvents_eraseTmp env b config events initState initState rfl
    have h2 := congrArg SessionState.outcome h
    exact h2

/-- Witness for C4: a missing key, a connection failure, an exhausted
resolver at close, and a player process error each reject concretely. -/
theorem errors_surface_to_caller_witness :
    playTextStart none
      = Except.error (SessionError.config "RIME_API_KEY environment variable is not set")
    ∧ (stepEvent envBare DEFAULT_CONFIG initState
        (SessionEvent.wsError "socket hang up")).outcome
      = some (Except.error (SessionError.wsFailure "socket hang up"))
    ∧ (stepEvent envBare DEFAULT_CONFIG initState SessionEvent.wsClose).outcome
      = some (Except.error (SessionError.noPlayer noPlayerMsg))
    ∧ (stepEvent envBare DEFAULT_CONFIG playingState
        (SessionEvent.playerError "spawn mpg123 ENOENT")).outcome
      = some (Except.error (SessionError.playerFailure "spawn mpg123 ENOENT")) :=
  ⟨errors_surface_to_caller.1 none (Or.inl rfl),
   errors_surface_to_caller.2.1 envBare DEFAULT_CONFIG initState "socket hang up" rfl,
   errors_surface_to_caller.2.2.2.1 envBare DEFAULT_CONFIG initState noPlayerMsg rfl rfl rfl,
   errors_surface_to_caller.2.2.2.2.1 envBare DEFAULT_CONFIG playingState
     "spawn mpg123 ENOENT" rfl (by decide)⟩


end RimeMcp
